import Mathlib

/-
  Verification of the borud/laser serial laser/stepper controller.

  Shallow embedding of the two near-duplicate Arduino sketches
  (src/laser_controller/laser_controller.ino, the full variant, and
  src/unnamed/part_000, the earlier variant that lacks laser arming).

  Hardware effects (digitalWrite / analogWrite on the laser pins, the
  stepper library calls setDirection / rotateDegrees, and the serial
  status prints) are recorded as an explicit event trace.  The stepper
  motion primitive (CustomStepper) is a black box per the source: the
  field stepper_moving models "not stepper.isDone()" — set when a
  rotation request is issued, cleared by setDirection(STOP) or by
  completion.  Machine integers: `int`/`long` arguments are modelled
  as unbounded Int (atoi overflow is undefined behaviour in the C
  source, so no wrap is defined there to model); the `byte` duty cycle
  is a Nat reduced modulo 2^8 at the int-to-byte conversion, where the
  wrap is defined and matters.
-/

set_option maxRecDepth 4000

/-- Direction argument of the CustomStepper motion primitive. -/
inductive StepDir where
  | CW
  | CCW
  | STOP
deriving DecidableEq, Repr

/-- Status lines printed on the serial port, one constructor per distinct
print site, carrying the numeric payloads that the source prints. -/
inductive Status where
  /-- `530 LASER UNARMED` -/
  | laserUnarmed
  /-- `205 LASER FIRED <ms> ms @ <duty>/255 duty cycle` -/
  | laserFired (ms : Int) (duty : Nat)
  /-- `520 LASER OFF (unarmed, duty_cycle = 0` -/
  | laserOff
  /-- `521 STEPPER STOPPED, POSITION LOST` -/
  | stepperStopped
  /-- `521 MAXIMUM FOCUS ROTATION IS 1440` -/
  | maxFocusExceeded
  /-- `204 FOCUS <n>` -/
  | focusAck (n : Int)
  /-- `209 FOCUS ZEROED, old pos = <p>` (laser_controller variant) -/
  | zeroAck (p : Int)
  /-- `201 FOCUS pos = <p>` (part_000 variant) -/
  | focusPosV0 (p : Int)
  /-- `206 DUTY CYCLE <v>` -/
  | dutyAck (v : Nat)
  /-- `207 LASER ARMED` -/
  | armAck
  /-- `208 LASER UNARMED` -/
  | unarmAck
  /-- `501 UNKNOWN COMMAND` -/
  | unknownCommand
  /-- the `202 ...`/`203 OK` help text -/
  | helpText
  /-- `510 OVERFLOW` -/
  | overflow
deriving DecidableEq, Repr

/-- Observable effects of the controller: status prints and the raw
hardware writes. -/
inductive Event where
  | statusEv (s : Status)
  /-- `analogWrite(PIN_LASER_PWM, v)` -/
  | pwmWrite (v : Nat)
  /-- `digitalWrite(PIN_LASER_ARM, high)` -/
  | armPinWrite (high : Bool)
  /-- `stepper.setDirection(d)` -/
  | setDir (d : StepDir)
  /-- `stepper.rotateDegrees(deg)` -/
  | rotateDeg (deg : Int)
deriving DecidableEq, Repr

/-- The mutable device globals of laser_controller.ino:
`laser_armed`, `laser_duty_cycle` (a byte), `stepper_pos` (a long),
`stepper_run`, plus the state of the black-box stepper primitive:
its current direction and whether a rotation is in flight
(`stepper_moving` = not `stepper.isDone()`). -/
structure DevState where
  laser_armed : Bool
  laser_duty_cycle : Nat
  stepper_pos : Int
  stepper_run : Bool
  stepper_dir : StepDir
  stepper_moving : Bool
deriving DecidableEq, Repr

def MAX_FOCUS_ROTATION : Int := 1440

def SERIAL_BUFFER_SIZE : Nat := 80

/-- Initial values of the globals (and the stepper constructed with
direction CW and nothing in flight). -/
def init_dev : DevState :=
  { laser_armed := false, laser_duty_cycle := 0, stepper_pos := 0,
    stepper_run := false, stepper_dir := StepDir.CW, stepper_moving := false }

/-- `step_focus` (laser_controller.ino lines 72-92): bound check on `|n|`,
direction from the sign of `n`, optimistic position accounting, mark
running. -/
def step_focus (n : Int) (s : DevState) : DevState × List Event :=
  if |n| > MAX_FOCUS_ROTATION then
    (s, [Event.statusEv Status.maxFocusExceeded])
  else if n > 0 then
    ({ s with stepper_dir := StepDir.CCW, stepper_moving := true,
              stepper_pos := s.stepper_pos + n, stepper_run := true },
     [Event.setDir StepDir.CCW, Event.rotateDeg n,
      Event.statusEv (Status.focusAck n)])
  else
    ({ s with stepper_dir := StepDir.CW, stepper_moving := true,
              stepper_pos := s.stepper_pos + n, stepper_run := true },
     [Event.setDir StepDir.CW, Event.rotateDeg (-n),
      Event.statusEv (Status.focusAck n)])

/-- `emergency_stop` (laser_controller.ino lines 94-109): de-energize the
laser pins, clear duty and armed, then stop the stepper only when a
rotation is in flight. -/
def emergency_stop (s : DevState) : DevState × List Event :=
  if s.stepper_moving then
    ({ s with laser_duty_cycle := 0, laser_armed := false,
              stepper_dir := StepDir.STOP, stepper_moving := false,
              stepper_run := false },
     [Event.armPinWrite false, Event.pwmWrite 0, Event.statusEv Status.laserOff,
      Event.setDir StepDir.STOP, Event.statusEv Status.stepperStopped])
  else
    ({ s with laser_duty_cycle := 0, laser_armed := false },
     [Event.armPinWrite false, Event.pwmWrite 0, Event.statusEv Status.laserOff])

/-- `step_zero_pos` (laser_controller.ino lines 111-115): prints the old
position, then resets it to 0. -/
def step_zero_pos (s : DevState) : DevState × List Event :=
  ({ s with stepper_pos := 0 }, [Event.statusEv (Status.zeroAck s.stepper_pos)])

/-- `step_zero_pos` of the part_000 variant (src/unnamed/part_000 lines
107-111): resets the position to 0 first, then prints `stepper_pos`,
i.e. the new value 0. -/
def v0_step_zero_pos (s : DevState) : DevState × List Event :=
  let s1 : DevState := { s with stepper_pos := 0 }
  (s1, [Event.statusEv (Status.focusPosV0 s1.stepper_pos)])

/-- `laser_set_duty_cycle` (laser_controller.ino lines 117-121): stores the
byte and acknowledges with the stored value. -/
def laser_set_duty_cycle (n : Nat) (s : DevState) : DevState × List Event :=
  let s1 : DevState := { s with laser_duty_cycle := n }
  (s1, [Event.statusEv (Status.dutyAck s1.laser_duty_cycle)])

/-- `laser_fire` (laser_controller.ino lines 123-137): rejected unless
armed; otherwise PWM at the stored duty cycle, a (blocking) delay of `n`
milliseconds — real time is not part of the state — then PWM back to 0
and the acknowledgement. -/
def laser_fire (n : Int) (s : DevState) : DevState × List Event :=
  if !s.laser_armed then
    (s, [Event.statusEv Status.laserUnarmed])
  else
    (s, [Event.pwmWrite s.laser_duty_cycle, Event.pwmWrite 0,
         Event.statusEv (Status.laserFired n s.laser_duty_cycle)])

/-- `laser_arm` (laser_controller.ino lines 139-143). -/
def laser_arm (s : DevState) : DevState × List Event :=
  ({ s with laser_armed := true },
   [Event.armPinWrite true, Event.statusEv Status.armAck])

/-- `laser_unarm` (laser_controller.ino lines 145-149). -/
def laser_unarm (s : DevState) : DevState × List Event :=
  ({ s with laser_armed := false },
   [Event.armPinWrite false, Event.statusEv Status.unarmAck])

/-- C `isspace` on the default locale. -/
def c_isspace (c : Char) : Bool :=
  c == ' ' || c == '\t' || c == '\n' || c == '\x0b' || c == '\x0c' || c == '\r'

/-- C `isdigit`. -/
def c_isdigit (c : Char) : Bool :=
  '0' ≤ c && c ≤ '9'

def atoi_digits : List Char → Nat → Nat
  | [], acc => acc
  | c :: rest, acc =>
    if c_isdigit c then atoi_digits rest (acc * 10 + (c.toNat - '0'.toNat))
    else acc

def skip_spaces : List Char → List Char
  | [] => []
  | c :: rest => if c_isspace c then skip_spaces rest else c :: rest

/-- C `atoi`: skip whitespace, optional sign, then leading decimal digits
(0 when there are none).  Modelled as unbounded Int: overflow of `atoi`
is undefined behaviour in the source language. -/
def atoi (s : List Char) : Int :=
  match skip_spaces s with
  | '-' :: rest => -((atoi_digits rest 0 : Nat) : Int)
  | '+' :: rest => ((atoi_digits rest 0 : Nat) : Int)
  | rest => ((atoi_digits rest 0 : Nat) : Int)

/-- The implicit C conversion from `int` to `byte` (unsigned 8 bit) at the
call `laser_set_duty_cycle(atoi(s+1))`: reduction modulo 2^8. -/
def byte_of_int (n : Int) : Nat := (n % 256).toNat

/-- `s[0]` of a NUL-terminated line: the first character, or NUL for the
empty line. -/
def opcode_of (line : List Char) : Char := line.headD (Char.ofNat 0)

/-- `parse_command` (laser_controller.ino lines 151-191): switch on the
first character of the line; the argument commands apply `atoi` to the
rest of the line. -/
def parse_command (line : List Char) (s : DevState) : DevState × List Event :=
  if opcode_of line = 'e' then emergency_stop s
  else if opcode_of line = 'a' then laser_arm s
  else if opcode_of line = 'u' then laser_unarm s
  else if opcode_of line = 'd' then
    laser_set_duty_cycle (byte_of_int (atoi line.tail)) s
  else if opcode_of line = 'f' then laser_fire (atoi line.tail) s
  else if opcode_of line = 'p' then step_focus (atoi line.tail) s
  else if opcode_of line = 'z' then step_zero_pos s
  else if opcode_of line = 'h' then (s, [Event.statusEv Status.helpText])
  else (s, [Event.statusEv Status.unknownCommand])

/-- The opcodes that `parse_command` recognizes. -/
def recognized_opcode (c : Char) : Bool :=
  c == 'e' || c == 'a' || c == 'u' || c == 'd' || c == 'f' || c == 'p' ||
    c == 'z' || c == 'h'

/-- The serial line reader's persistent globals: the buffer contents up to
the insertion cursor (`buffer[0..buffer_offset-1]`; the cursor is
`buf.length`) and `overflow_mode`. -/
structure RdState where
  buf : List Char
  ovf : Bool
deriving DecidableEq, Repr

def init_rd : RdState := { buf := [], ovf := false }

/-- Result of one `read_serial()` call: the reader state, the input bytes
left unread in the serial source, the emitted events, and the lines
handed to `parse_command` (kept as a list so that "at most one dispatch
per call" is a theorem, not a typing artifact). -/
structure FeedOut where
  rd : RdState
  rest : List Char
  evs : List Event
  lines : List (List Char)
deriving DecidableEq, Repr

/-- `read_serial` (laser_controller.ino lines 207-252), with the available
serial bytes passed explicitly and `lc` the local `loop_count`.
Per byte: in overflow mode, a newline clears `overflow_mode` and returns
(without touching the buffer or cursor), and `loop_count` reaching
`SERIAL_BUFFER_SIZE` prints `510 OVERFLOW` and returns; otherwise —
including the overflow-mode fall-through, which the source does not
guard — a newline dispatches the buffered line and resets the cursor,
and a non-newline byte is stored and advances the cursor, entering
overflow mode with a `510 OVERFLOW` print when the cursor reaches
capacity. -/
def read_serial_go : List Char → RdState → Nat → FeedOut
  | [], r, _ => ⟨r, [], [], []⟩
  | c :: rest, r, lc =>
    if r.ovf ∧ c = '\n' then
      ⟨{ r with ovf := false }, rest, [], []⟩
    else if r.ovf ∧ lc + 1 = SERIAL_BUFFER_SIZE then
      ⟨r, rest, [Event.statusEv Status.overflow], []⟩
    else if c = '\n' then
      ⟨{ r with buf := [] }, rest, [], [r.buf]⟩
    else if (r.buf ++ [c]).length = SERIAL_BUFFER_SIZE then
      ⟨{ buf := [], ovf := true }, rest, [Event.statusEv Status.overflow], []⟩
    else
      read_serial_go rest { r with buf := r.buf ++ [c] }
        (if r.ovf then lc + 1 else lc)

/-- Hand each completed line to `parse_command` in order. -/
def dispatch_lines : List (List Char) → DevState → DevState × List Event
  | [], s => (s, [])
  | l :: ls, s =>
    let p := parse_command l s
    let q := dispatch_lines ls p.1
    (q.1, p.2 ++ q.2)

/-- The serial-ingestion part of `loop()`: repeated `read_serial()` calls
(each with a fresh `loop_count`), dispatching completed lines, until the
input is exhausted or the fuel runs out.  The stepper poll of `loop()`
is not involved in the framing claims modelled here. -/
def run_loop : Nat → List Char → RdState → DevState → RdState × DevState × List Event
  | 0, _, r, s => (r, s, [])
  | _ + 1, [], r, s => (r, s, [])
  | fuel + 1, input, r, s =>
    let f := read_serial_go input r 0
    let p := dispatch_lines f.lines s
    let t := run_loop fuel f.rest f.rd p.1
    (t.1, t.2.1, f.evs ++ p.2 ++ t.2.2)

/-- 160 non-terminator bytes, then a newline, then the line `z`. -/
def c3_flood : List Char := List.replicate 160 'x' ++ ['\n', 'z', '\n']

/-- 100 non-terminator bytes, then a newline, then the line `z`. -/
def c3_resync_input : List Char := List.replicate 100 'x' ++ ['\n', 'z', '\n']

/-- 160 non-terminator bytes, nothing else. -/
def c4_flood : List Char := List.replicate 160 'x'

/-- C1: for every duration argument `n` (0 and negative included),
`laser_fire n` in the unarmed state returns the state unchanged (armed
flag, duty cycle, stepper position and motion state included) and emits
only the `530 LASER UNARMED` rejection — in particular no `pwmWrite`
event, so no PWM output change. -/
theorem laser_fire_unarmed_noop (n : Int) (s : DevState)
    (h : s.laser_armed = false) :
    laser_fire n s = (s, [Event.statusEv Status.laserUnarmed]) := by
  simp [laser_fire, h]

theorem laser_fire_unarmed_noop_w :
    init_dev.laser_armed = false ∧
      laser_fire (-3) init_dev = (init_dev, [Event.statusEv Status.laserUnarmed]) :=
  ⟨rfl, laser_fire_unarmed_noop (-3) init_dev rfl⟩

/-- C10: for every duration `n`, `laser_fire n` while armed leaves the
whole device state unchanged (armed flag, duty cycle, stepper position,
motion state): its only effects are the PWM pulse (duty then 0) and the
`205` acknowledgement, so the laser remains armed afterwards. -/
theorem laser_fire_armed_frame (n : Int) (s : DevState)
    (h : s.laser_armed = true) :
    laser_fire n s =
      (s, [Event.pwmWrite s.laser_duty_cycle, Event.pwmWrite 0,
           Event.statusEv (Status.laserFired n s.laser_duty_cycle)]) := by
  simp [laser_fire, h]

theorem laser_fire_armed_frame_w :
    ({ init_dev with laser_armed := true, laser_duty_cycle := 100 } :
        DevState).laser_armed = true ∧
      laser_fire 50 { init_dev with laser_armed := true, laser_duty_cycle := 100 } =
        ({ init_dev with laser_armed := true, laser_duty_cycle := 100 },
         [Event.pwmWrite 100, Event.pwmWrite 0,
          Event.statusEv (Status.laserFired 50 100)]) :=
  ⟨rfl, laser_fire_armed_frame 50
    { init_dev with laser_armed := true, laser_duty_cycle := 100 } rfl⟩

/-- C2: from every device state (reachable ones included), `emergency_stop`
results in the laser unarmed with duty cycle 0 and the stepper idle (no
rotation in flight), and it is idempotent: a second call produces the
same final state as the first. -/
theorem emergency_stop_safe_idempotent (s : DevState) :
    (emergency_stop s).1.laser_armed = false ∧
    (emergency_stop s).1.laser_duty_cycle = 0 ∧
    (emergency_stop s).1.stepper_moving = false ∧
    (emergency_stop (emergency_stop s).1).1 = (emergency_stop s).1 := by
  obtain ⟨a, d, p, r, dir, m⟩ := s
  cases m <;> simp [emergency_stop]

/-- C5: `step_focus n` is rejected with the `521` bound status and leaves
the tracked position (indeed the whole state) unchanged when `|n|`
exceeds 1440; otherwise it adds exactly `n` to the tracked position
immediately, marks the stepper running/moving, selects the rotation
direction from the sign of `n` (positive → CCW, otherwise CW), and emits
the `204` acknowledgement carrying `n`. -/
theorem step_focus_spec (n : Int) (s : DevState) :
    (MAX_FOCUS_ROTATION < |n| →
      step_focus n s = (s, [Event.statusEv Status.maxFocusExceeded])) ∧
    (|n| ≤ MAX_FOCUS_ROTATION →
      (step_focus n s).1.stepper_pos = s.stepper_pos + n ∧
      (step_focus n s).1.stepper_run = true ∧
      (step_focus n s).1.stepper_moving = true ∧
      (step_focus n s).1.stepper_dir =
        (if 0 < n then StepDir.CCW else StepDir.CW) ∧
      (step_focus n s).2 =
        [Event.setDir (if 0 < n then StepDir.CCW else StepDir.CW),
         Event.rotateDeg (if 0 < n then n else -n),
         Event.statusEv (Status.focusAck n)]) := by
  constructor
  · intro h
    simp [step_focus, h]
  · intro h
    rcases lt_or_ge 0 n with hn | hn
    · simp [step_focus, not_lt.mpr h, hn]
    · simp [step_focus, not_lt.mpr h, not_lt.mpr hn]

theorem step_focus_spec_w :
    step_focus 2000 init_dev = (init_dev, [Event.statusEv Status.maxFocusExceeded]) ∧
    (step_focus 10 init_dev).1.stepper_pos = init_dev.stepper_pos + 10 :=
  ⟨(step_focus_spec 2000 init_dev).1 (by decide),
   ((step_focus_spec 10 init_dev).2 (by decide)).1⟩

/-- C6 counterexample: in the part_000 variant, `step_zero_pos` from
tracked position 5 emits the status carrying 0 (the post-reset value),
not the previous value 5 — so the claim that the status reports the
previous position is false for that cited source. -/
theorem v0_step_zero_pos_cex :
    (v0_step_zero_pos { init_dev with stepper_pos := 5 }).2 =
      [Event.statusEv (Status.focusPosV0 0)] ∧
    Event.statusEv (Status.focusPosV0 5) ∉
      (v0_step_zero_pos { init_dev with stepper_pos := 5 }).2 := by
  decide

/-- C6 amended: both variants reset the tracked position to 0
unconditionally, regardless of motion state; the laser_controller
variant's status reports the previous (pre-reset) value, while the
part_000 variant's status reports the post-reset value 0. -/
theorem step_zero_pos_spec (s : DevState) :
    (step_zero_pos s).1.stepper_pos = 0 ∧
    (step_zero_pos s).2 = [Event.statusEv (Status.zeroAck s.stepper_pos)] ∧
    (v0_step_zero_pos s).1.stepper_pos = 0 ∧
    (v0_step_zero_pos s).2 = [Event.statusEv (Status.focusPosV0 0)] := by
  simp [step_zero_pos, v0_step_zero_pos]

/-- C7 counterexample: the set-duty-cycle command with argument 300 stores
44 = 300 mod 256, not 300 — the value is not accepted as given, because
the `atoi` result is converted to a byte at the call site. -/
theorem duty_cycle_not_as_given_cex :
    (parse_command ['d', '3', '0', '0'] init_dev).1.laser_duty_cycle = 44 ∧
    (44 : Nat) ≠ 300 ∧
    (parse_command ['d', '3', '0', '0'] init_dev).2 =
      [Event.statusEv (Status.dutyAck 44)] := by
  decide

/-- C7 amended: for every integer argument `n`, the set-duty-cycle
operation stores `n` reduced modulo 256 (the int-to-byte conversion)
with no 0-254 range check — 255, outside the documented range, is
stored as is — and the `206` acknowledgement carries the stored value. -/
theorem set_duty_cycle_mod256 (n : Int) (s : DevState) :
    laser_set_duty_cycle (byte_of_int n) s =
      ({ s with laser_duty_cycle := (n % 256).toNat },
       [Event.statusEv (Status.dutyAck ((n % 256).toNat))]) ∧
    (laser_set_duty_cycle (byte_of_int 255) s).1.laser_duty_cycle = 255 := by
  simp [laser_set_duty_cycle, byte_of_int]

/-- C9: every dispatched line whose first character (NUL for the empty
line) is not a recognized opcode gets the explicit `501 UNKNOWN COMMAND`
status and leaves the device state unchanged; the dispatcher is a total
function, so it cannot fault. -/
theorem unknown_opcode_rejected (line : List Char) (s : DevState)
    (h : recognized_opcode (opcode_of line) = false) :
    parse_command line s = (s, [Event.statusEv Status.unknownCommand]) := by
  simp only [recognized_opcode, Bool.or_eq_false_iff, beq_eq_false_iff_ne,
    ne_eq] at h
  obtain ⟨⟨⟨⟨⟨⟨⟨he, ha⟩, hu⟩, hd⟩, hf⟩, hp⟩, hz⟩, hh⟩ := h
  simp [parse_command, he, ha, hu, hd, hf, hp, hz, hh]

theorem unknown_opcode_rejected_w :
    recognized_opcode (opcode_of []) = false ∧
      parse_command [] init_dev = (init_dev, [Event.statusEv Status.unknownCommand]) :=
  ⟨by decide, unknown_opcode_rejected [] init_dev (by decide)⟩

/-- C8: (i) every `read_serial` call dispatches at most one command,
whatever remains buffered; (ii) a newline read while not in overflow
mode makes the call dispatch exactly the buffer content up to the
cursor, reset the cursor to 0, and return immediately — the remaining
input bytes are left unconsumed. -/
theorem one_dispatch_per_feed :
    (∀ (input : List Char) (r : RdState) (lc : Nat),
        (read_serial_go input r lc).lines.length ≤ 1) ∧
    (∀ (rest : List Char) (r : RdState) (lc : Nat), r.ovf = false →
        read_serial_go ('\n' :: rest) r lc =
          ⟨{ r with buf := [] }, rest, [], [r.buf]⟩) := by
  constructor
  · intro input
    induction input with
    | nil => intro r lc; simp [read_serial_go]
    | cons c rest ih =>
      intro r lc
      rw [read_serial_go]
      split_ifs <;> simp [ih]
  · intro rest r lc h
    rw [read_serial_go]
    rw [if_neg (by simp [h]), if_neg (by simp [h]), if_pos rfl]

theorem one_dispatch_per_feed_w :
    (read_serial_go ['a', '\n', 'b', '\n'] init_rd 0).lines.length ≤ 1 ∧
    read_serial_go ['\n'] init_rd 0 = ⟨⟨[], false⟩, [], [], [[]]⟩ :=
  ⟨one_dispatch_per_feed.1 ['a', '\n', 'b', '\n'] init_rd 0,
   one_dispatch_per_feed.2 [] init_rd 0 rfl⟩

/-- C3 counterexample: feeding 160 non-terminator bytes, a newline, and
then the line `z` from the initial state emits `510 OVERFLOW` three
times — not exactly once — and never dispatches the `z` command (no
`209 FOCUS ZEROED` status appears), because the bytes consumed in
overflow mode are stored in the buffer and keep advancing the cursor, so
the newline that ends overflow mode does not leave an empty buffer. -/
theorem overflow_not_once_no_resync_cex :
    (run_loop 8 c3_flood init_rd init_dev).2.2 =
      [Event.statusEv Status.overflow, Event.statusEv Status.overflow,
       Event.statusEv Status.overflow] ∧
    (run_loop 8 c3_flood init_rd init_dev).2.2.count
        (Event.statusEv Status.overflow) ≠ 1 ∧
    Event.statusEv (Status.zeroAck 0) ∉ (run_loop 8 c3_flood init_rd init_dev).2.2 := by
  decide

/-- C3 amended: when the cursor reaches capacity without a terminator the
line reader emits one `510 OVERFLOW` and enters overflow mode, and
further `510 OVERFLOW` statuses follow for each additional
capacity-sized terminator-less run (so not exactly one in general); a
newline seen while overflowing clears overflow mode but does NOT reset
the buffer: the bytes consumed during overflow mode remain buffered, so
the next terminator-delimited line is dispatched with that residue
prefixed — concretely, after a 100-byte terminator-less run and its
terminating newline, the following `z` line is dispatched as a
20-byte-residue-prefixed line and rejected as `501 UNKNOWN COMMAND`
instead of being executed. -/
theorem overflow_recovery_keeps_residue :
    (∀ (c : Char) (rest : List Char) (r : RdState) (lc : Nat),
        r.ovf = false → ¬(c = '\n') →
        (r.buf ++ [c]).length = SERIAL_BUFFER_SIZE →
        read_serial_go (c :: rest) r lc =
          ⟨⟨[], true⟩, rest, [Event.statusEv Status.overflow], []⟩) ∧
    (∀ (rest : List Char) (r : RdState) (lc : Nat),
        r.ovf = true →
        read_serial_go ('\n' :: rest) r lc =
          ⟨{ r with ovf := false }, rest, [], []⟩) ∧
    (run_loop 8 c3_resync_input init_rd init_dev).2.2 =
      [Event.statusEv Status.overflow, Event.statusEv Status.unknownCommand] := by
  refine ⟨?_, ?_, by decide⟩
  · intro c rest r lc ho hc hlen
    rw [read_serial_go]
    rw [if_neg (by simp [ho]), if_neg (by simp [ho]), if_neg hc, if_pos hlen]
  · intro rest r lc ho
    rw [read_serial_go]
    rw [if_pos ⟨ho, rfl⟩]

theorem overflow_recovery_keeps_residue_w :
    read_serial_go ['q'] ⟨List.replicate 79 'x', false⟩ 0 =
      ⟨⟨[], true⟩, [], [Event.statusEv Status.overflow], []⟩ ∧
    read_serial_go ['\n'] ⟨['y'], true⟩ 0 = ⟨⟨['y'], false⟩, [], [], []⟩ :=
  ⟨overflow_recovery_keeps_residue.1 'q' [] ⟨List.replicate 79 'x', false⟩ 0
      rfl (by decide) (by decide),
   overflow_recovery_keeps_residue.2.1 [] ⟨['y'], true⟩ 0 rfl⟩

/-- C4 counterexample: feeding 160 non-terminator bytes from the initial
state makes the per-call discard counter reach the bound (the second
`510 OVERFLOW` is emitted), yet overflow mode is still set afterwards —
the reader does not force-exit overflow mode at the bound — and the
"discarded" bytes are in fact accumulated in the buffer (79 of them). -/
theorem overflow_bound_no_exit_cex :
    (run_loop 8 c4_flood init_rd init_dev).1.ovf = true ∧
    (run_loop 8 c4_flood init_rd init_dev).2.2.count
        (Event.statusEv Status.overflow) = 2 ∧
    (run_loop 8 c4_flood init_rd init_dev).1.buf.length = 79 := by
  decide

/-- C4 amended: the counter is local to one `read_serial` call and counts
the bytes processed in overflow mode during that call; when it reaches
the bound (buffer capacity) the call emits `510 OVERFLOW` and returns,
with overflow mode still set — overflow mode ends only when a newline
is consumed. -/
theorem overflow_bound_returns_not_exits :
    (∀ (c : Char) (rest : List Char) (r : RdState) (lc : Nat),
        r.ovf = true → ¬(c = '\n') → lc + 1 = SERIAL_BUFFER_SIZE →
        read_serial_go (c :: rest) r lc =
          ⟨r, rest, [Event.statusEv Status.overflow], []⟩) ∧
    (∀ (input : List Char) (r : RdState) (lc : Nat),
        r.ovf = true → (read_serial_go input r lc).rd.ovf = false →
        '\n' ∈ input) := by
  constructor
  · intro c rest r lc ho hc hlc
    rw [read_serial_go]
    rw [if_neg (by simp [hc]), if_pos ⟨ho, hlc⟩]
  · intro input
    induction input with
    | nil =>
      intro r lc ho hdone
      rw [read_serial_go] at hdone
      exact absurd hdone (by simp [ho])
    | cons c rest ih =>
      intro r lc ho hdone
      rw [read_serial_go] at hdone
      by_cases hc : c = '\n'
      · exact hc ▸ List.mem_cons_self c rest
      · rw [if_neg (by simp [hc])] at hdone
        by_cases h2 : r.ovf ∧ lc + 1 = SERIAL_BUFFER_SIZE
        · rw [if_pos h2] at hdone
          exact absurd hdone (by simp [ho])
        · rw [if_neg h2, if_neg hc] at hdone
          by_cases h4 : (r.buf ++ [c]).length = SERIAL_BUFFER_SIZE
          · rw [if_pos h4] at hdone
            exact absurd hdone (by simp)
          · rw [if_neg h4] at hdone
            exact List.mem_cons_of_mem c (ih _ _ (by simp [ho]) hdone)

theorem overflow_bound_returns_not_exits_w :
    read_serial_go ['q', 'y'] ⟨[], true⟩ 79 =
      ⟨⟨[], true⟩, ['y'], [Event.statusEv Status.overflow], []⟩ ∧
    '\n' ∈ ['a', '\n'] :=
  ⟨overflow_bound_returns_not_exits.1 'q' ['y'] ⟨[], true⟩ 79 rfl (by decide)
      (by decide),
   overflow_bound_returns_not_exits.2 ['a', '\n'] ⟨[], true⟩ 0 rfl (by decide)⟩
